import Mathlib

/-!
Verification of the CounselPro-AI analysis pipeline and its frontend
service layer.

The definitions below are shallow embeddings of the TypeScript sources
under frontend/src (lib/analysis-utils.ts, lib/types.analysis.ts,
lib/services/sessions.ts, lib/services/analysis.ts,
components/transcript/transcript-viewer.tsx) together with models of the
backend pipeline components (JobQueue, PipelineOrchestrator, ResultStore,
transcript endpoint) whose Python sources are not part of this tree; the
latter are modelled from the specification and from
docs/flow-frontend-nlp.md and are marked as such in their doc comments.

Conventions: TypeScript optional fields become Option, the optional
chaining operator becomes Option.bind, JavaScript falsy coalescing on
strings and arrays is modelled explicitly, and numeric scores use Int.
-/

set_option autoImplicit false

namespace CounselPro

/-! ### Generic string and association-list helpers -/

/-- Substring test on character lists: does `s` contain `pat` as a
contiguous infix?  Mirrors JavaScript `String.prototype.includes`. -/
def containsSub (pat : List Char) : List Char → Bool
  | [] => pat.isEmpty
  | c :: rest => List.isPrefixOf pat (c :: rest) || containsSub pat rest

/-- JavaScript `s.includes(pat)` on Lean strings. -/
def strIncludes (s pat : String) : Bool :=
  containsSub pat.data s.data

/-- JavaScript `s.toLowerCase()` (ASCII-level model). -/
def lowerStr (s : String) : String :=
  String.map Char.toLower s

/-- JavaScript `a || b` where `a : string | undefined`: an absent or empty
string falls through to `b`. -/
def jsOrStr (a : Option String) (b : String) : String :=
  match a with
  | some s => if s = "" then b else s
  | none => b

/-- First value stored under key `sid` in an association list. -/
def lookupKey {A : Type} (sid : String) : List (String × A) → Option A
  | [] => none
  | (s, d) :: rest => if s = sid then some d else lookupKey sid rest

/-- Number of entries stored under key `sid`. -/
def countFor {A : Type} (sid : String) : List (String × A) → Nat
  | [] => 0
  | (s, _) :: rest => (if s = sid then 1 else 0) + countFor sid rest

/-- Remove every entry stored under key `sid`. -/
def removeKey {A : Type} (sid : String) : List (String × A) → List (String × A)
  | [] => []
  | (s, d) :: rest => if s = sid then removeKey sid rest else (s, d) :: removeKey sid rest

/-! ### Red flags and dashboard scoring
From frontend/src/lib/types.analysis.ts (the `calcCompliance` section) and
frontend/src/lib/analysis-utils.ts. -/

/-- A red flag in object form: `{ type?, message?, description?, timestamp? }`. -/
structure RedFlagObj where
  type : Option String
  message : Option String
  description : Option String
  timestamp : Option String
deriving DecidableEq

/-- `RedFlag | string`: `calcCompliance` red flags may be bare strings or
objects. -/
inductive RedFlag where
  | str (s : String)
  | obj (o : RedFlagObj)
deriving DecidableEq

/-- The payment keyword list of `filterPaymentFlags` in types.analysis.ts. -/
def paymentKeywords : List String :=
  ["payment", "billing", "pay on your behalf", "fee", "refund", "advance",
   "cost", "price", "money", "financial", "charge", "invoice", "gst",
   "catalog", "placement", "faculty"]

/-- The pressure keyword list of `filterPressureFlags`. -/
def pressureKeywords : List String :=
  ["pressure", "coercion", "guarantee", "last chance", "urgent", "must",
   "leave your job", "commit today"]

/-- The per-flag predicate inside `filterPaymentFlags` / `filterPressureFlags`:
a string flag matches when its lowercased text contains a keyword; an
object flag matches when its lowercased `type`, or its lowercased
`message || description || ''`, contains a keyword. -/
def matchesKeywords (keywords : List String) (flag : RedFlag) : Bool :=
  match flag with
  | .str s =>
    let flagText := lowerStr s
    keywords.any (fun keyword => strIncludes flagText keyword)
  | .obj o =>
    let type := lowerStr (jsOrStr o.type "")
    let message := lowerStr (jsOrStr o.message (jsOrStr o.description ""))
    keywords.any (fun keyword =>
      strIncludes type keyword || strIncludes message keyword)

/-- `filterPaymentFlags` from types.analysis.ts. -/
def filterPaymentFlags (flags : List RedFlag) : List RedFlag :=
  flags.filter (matchesKeywords paymentKeywords)

/-- `filterPressureFlags` from types.analysis.ts. -/
def filterPressureFlags (flags : List RedFlag) : List RedFlag :=
  flags.filter (matchesKeywords pressureKeywords)

/-- `getPressureSeverity` from frontend/src/lib/analysis-utils.ts
(lines 78-85): severity is keyed on the number of pressure flags. -/
def getPressureSeverity (pressureFlags : List RedFlagObj) : String :=
  let count := pressureFlags.length
  if count = 0 then "None"
  else if count ≤ 2 then "Low"
  else if count ≤ 4 then "Medium"
  else "High"

/-- Numeric rank of the severity labels, for stating monotonicity. -/
def severityRank : String → Nat
  | "Low" => 1
  | "Medium" => 2
  | "High" => 3
  | _ => 0

/-! ### Analysis response types
From frontend/src/lib/types.analysis.ts.  Only the fields read by the
verified functions are carried; every omitted field is optional in the
TypeScript interface and never inspected by the code under proof. -/

/-- `attire_assessment` / `background_assessment` entries. -/
structure Assessment where
  overall_rating : Option Int
  description : Option String
  meets_professional_standards : Option Bool
deriving DecidableEq

/-- `environment_analysis` of `VideoAnalysisData`. -/
structure EnvironmentAnalysis where
  attire_assessment : Option Assessment
  background_assessment : Option Assessment
deriving DecidableEq

/-- `VideoAnalysisData` (fields used by `calcCompliance`). -/
structure VideoAnalysisData where
  environment_analysis : Option EnvironmentAnalysis
deriving DecidableEq

/-- `AudioAnalysisData` (fields used by `calcCompliance`). -/
structure AudioAnalysisData where
  red_flags : Option (List RedFlag)
deriving DecidableEq

/-- `SessionAnalysisResponse` (fields used by the verified functions).
`status` is one of the string literals
`"PENDING" | "STARTED" | "COMPLETED" | "FAILED"` when present. -/
structure SessionAnalysisResponse where
  status : Option String
  video_analysis_data : Option VideoAnalysisData
  audio_analysis_data : Option AudioAnalysisData
deriving DecidableEq

/-- `BulkAnalysisItem.video_analysis_summary.environment_analysis.*`:
in the bulk shape the `meets_professional_standards` flags are required
booleans. -/
structure BulkAssessment where
  meets_professional_standards : Bool
deriving DecidableEq

/-- `environment_analysis` of `BulkAnalysisItem.video_analysis_summary`. -/
structure BulkEnvironment where
  attire_assessment : BulkAssessment
  background_assessment : BulkAssessment
deriving DecidableEq

/-- `video_analysis_summary` of `BulkAnalysisItem`. -/
structure BulkVideoSummary where
  environment_analysis : BulkEnvironment
deriving DecidableEq

/-- `audio_analysis_summary` of `BulkAnalysisItem`. -/
structure BulkAudioSummary where
  red_flags : List RedFlag
deriving DecidableEq

/-- `BulkAnalysisItem` (fields used by `calcCompliance`). -/
structure BulkAnalysisItem where
  status : Option String
  video_analysis_summary : BulkVideoSummary
  audio_analysis_summary : BulkAudioSummary
deriving DecidableEq

/-- The overloaded argument of `calcCompliance`:
`SessionAnalysisResponse | BulkAnalysisItem`; the TypeScript code branches
on `'video_analysis_summary' in analysis`. -/
inductive AnalysisInput where
  | full (a : SessionAnalysisResponse)
  | bulk (b : BulkAnalysisItem)
deriving DecidableEq

/-- `calcCompliance` from types.analysis.ts (lines 407-472), branch for
branch: +50 for attire strictly equal to true, +50 for background,
-25 when at least one payment flag filters through, -25 when at least one
pressure flag filters through, clamped into 0..100 by
`Math.max(0, Math.min(100, score))`. -/
def calcCompliance (analysis : AnalysisInput) : Int :=
  match analysis with
  | .bulk b =>
    let attireMeets :=
      b.video_analysis_summary.environment_analysis.attire_assessment.meets_professional_standards
    let backgroundMeets :=
      b.video_analysis_summary.environment_analysis.background_assessment.meets_professional_standards
    let score1 : Int := if attireMeets = true then 0 + 50 else 0
    let score2 : Int := if backgroundMeets = true then score1 + 50 else score1
    let redFlags := b.audio_analysis_summary.red_flags
    let paymentFlags := filterPaymentFlags redFlags
    let score3 : Int := if paymentFlags.length > 0 then score2 - 25 else score2
    let pressureFlags := filterPressureFlags redFlags
    let score4 : Int := if pressureFlags.length > 0 then score3 - 25 else score3
    max 0 (min 100 score4)
  | .full a =>
    let attireMeets :=
      ((a.video_analysis_data.bind VideoAnalysisData.environment_analysis).bind
        EnvironmentAnalysis.attire_assessment).bind Assessment.meets_professional_standards
    let backgroundMeets :=
      ((a.video_analysis_data.bind VideoAnalysisData.environment_analysis).bind
        EnvironmentAnalysis.background_assessment).bind Assessment.meets_professional_standards
    let score1 : Int := if attireMeets = some true then 0 + 50 else 0
    let score2 : Int := if backgroundMeets = some true then score1 + 50 else score1
    let redFlags := (a.audio_analysis_data.bind AudioAnalysisData.red_flags).getD []
    let paymentFlags := filterPaymentFlags redFlags
    let score3 : Int := if paymentFlags.length > 0 then score2 - 25 else score2
    let pressureFlags := filterPressureFlags redFlags
    let score4 : Int := if pressureFlags.length > 0 then score3 - 25 else score3
    max 0 (min 100 score4)

/-- The attire flag `calcCompliance` inspects, uniformly over both input
shapes (the bulk shape always carries a concrete boolean). -/
def attireMeetsOf : AnalysisInput → Option Bool
  | .bulk b =>
    some b.video_analysis_summary.environment_analysis.attire_assessment.meets_professional_standards
  | .full a =>
    ((a.video_analysis_data.bind VideoAnalysisData.environment_analysis).bind
      EnvironmentAnalysis.attire_assessment).bind Assessment.meets_professional_standards

/-- The background flag `calcCompliance` inspects. -/
def backgroundMeetsOf : AnalysisInput → Option Bool
  | .bulk b =>
    some b.video_analysis_summary.environment_analysis.background_assessment.meets_professional_standards
  | .full a =>
    ((a.video_analysis_data.bind VideoAnalysisData.environment_analysis).bind
      EnvironmentAnalysis.background_assessment).bind Assessment.meets_professional_standards

/-- The red flag list `calcCompliance` inspects. -/
def redFlagsOf : AnalysisInput → List RedFlag
  | .bulk b => b.audio_analysis_summary.red_flags
  | .full a => (a.audio_analysis_data.bind AudioAnalysisData.red_flags).getD []

/-- The clamp `Math.max(0, Math.min(100, score))`. -/
def clampScore (score : Int) : Int :=
  max 0 (min 100 score)

/-! ### Frontend service layer
From frontend/src/lib/services/analysis.ts and sessions.ts.  An HTTP
request outcome is embedded as `Except String body`: `ok` carries the
parsed response body, `error` stands for any rejection of the underlying
Axios promise (network failure, non-2xx status, parse failure). -/

/-- `getSessionAnalysisBySession` (services/analysis.ts lines 13-24): the
try/catch returns the parsed body on success and returns `null` on any
request failure instead of re-throwing. -/
def getSessionAnalysisBySession
    (outcome : Except String SessionAnalysisResponse) :
    Option SessionAnalysisResponse :=
  match outcome with
  | .ok response => some response
  | .error _ => none

/-- `baseQuery.data?.status` inside `useSessionAnalysisWithPolling`:
`data` is absent before the first fetch or `null` after a failed fetch. -/
def shouldPollOf (data : Option SessionAnalysisResponse) : Option String :=
  data.bind SessionAnalysisResponse.status

/-- JavaScript truthiness of a `string | undefined` value: only an absent
value or the empty string is falsy. -/
def jsTruthyStr : Option String → Bool
  | none => false
  | some s => !(s = "")

/-- The `refetchInterval` computed by `useSessionAnalysisWithPolling`
(services/analysis.ts lines 87-106): `shouldPoll ? pollingInterval :
undefined`, with `shouldPoll = baseQuery.data?.status`. -/
def refetchIntervalOf (pollingInterval : Nat)
    (data : Option SessionAnalysisResponse) : Option Nat :=
  if jsTruthyStr (shouldPollOf data) then some pollingInterval else none

/-! ### Transcript data and the gated transcript read
Frontend side from frontend/src/lib/services/sessions.ts and
components/transcript/transcript-viewer.tsx; the backend endpoint
`GET /raw-transcripts/by-session/{uid}` is not part of this tree and is
modelled from the specification. -/

/-- One transcript utterance (fields used by the viewer). -/
structure Utterance where
  speaker : Nat
  text : String
  role : String
  start_time : String
  end_time : String
deriving DecidableEq

/-- The `raw_transcript` payload: utterances plus metadata (opaque here). -/
structure TranscriptData where
  utterances : List Utterance
deriving DecidableEq

/-- The body of `GET /raw-transcripts/by-session/{uid}` as the frontend
types it (`RawTranscriptResponse`): a status and, when served, the
transcript payload. -/
structure TranscriptReadResponse where
  status : String
  raw_transcript : Option TranscriptData
deriving DecidableEq

/-- What the backend stores for one session: the analysis status that
pollers read and the persisted raw transcript, if any. -/
structure StoredSession where
  status : String
  raw_transcript : Option TranscriptData
deriving DecidableEq

/-- Modelled from the spec: the transcript read endpoint
(`GET transcript(sessionId)`, backend raw_transcript_route.py, absent from
this tree) returns transcript data only if `SessionAnalysis.status ==
COMPLETED`, otherwise a status-only response. -/
def transcriptEndpoint (st : StoredSession) : TranscriptReadResponse :=
  if st.status = "COMPLETED" then
    { status := st.status, raw_transcript := st.raw_transcript }
  else
    { status := st.status, raw_transcript := none }

/-- `getRawTranscript` (services/sessions.ts lines 157-166): returns the
response body on success and `null` on any request failure. -/
def getRawTranscript (outcome : Except String TranscriptReadResponse) :
    Option TranscriptReadResponse :=
  match outcome with
  | .ok response => some response
  | .error _ => none

/-- `TranscriptViewer`: `currentData = transcriptResponse?.raw_transcript
|| data` (transcript-viewer.tsx line 136), where `data` is the optional
back-compat prop. -/
def viewerCurrentData (transcriptResponse : Option TranscriptReadResponse)
    (dataProp : Option TranscriptData) : Option TranscriptData :=
  match transcriptResponse.bind TranscriptReadResponse.raw_transcript with
  | some d => some d
  | none => dataProp

/-- `TranscriptViewer`: `utterances = currentData?.utterances || []`
(transcript-viewer.tsx line 137) - the utterance list the component
renders. -/
def viewerUtterances (transcriptResponse : Option TranscriptReadResponse)
    (dataProp : Option TranscriptData) : List Utterance :=
  ((viewerCurrentData transcriptResponse dataProp).map
    TranscriptData.utterances).getD []

/-! ### Status values and lifecycle
The status union appears in frontend/src/lib/types.analysis.ts (lines 140
and 278), services/sessions.ts (line 122) and
components/analysis/analysis-action-button.tsx (line 12); the lifecycle
chain is stated in docs/flow-frontend-nlp.md (section 4). -/

/-- The status literals of the TypeScript union
`"PENDING" | "STARTED" | "COMPLETED" | "FAILED"`. -/
def analysisStatusValues : List String :=
  ["PENDING", "STARTED", "COMPLETED", "FAILED"]

/-- The status set named by the specification
(`PENDING | RUNNING | COMPLETED | FAILED`). -/
def specStatusValues : List String :=
  ["PENDING", "RUNNING", "COMPLETED", "FAILED"]

/-- Modelled from docs/flow-frontend-nlp.md section 4: the lifecycle is
`PENDING -> STARTED -> COMPLETED | FAILED`; `statusStep a b` holds when a
job may move from `a` to `b`. -/
def statusStep (a b : String) : Bool :=
  (a = "PENDING" && b = "STARTED") ||
  (a = "STARTED" && (b = "COMPLETED" || b = "FAILED"))

/-! ### JobQueue admission and dedup
The backend trigger route (`GET /sessions/{uid}/analysis_by_celery`) is
not part of this tree; the admission check is modelled from the
specification (sections 4.1 and 8, Dedup). -/

/-- The handle a trigger call receives: the admitted job's identifier and
whether this call admitted it (`accepted = false` normalizes a duplicate
trigger to "already in progress" rather than an error). -/
structure JobHandle where
  jobId : Nat
  accepted : Bool
deriving DecidableEq

/-- The dedup registry: in-flight jobs keyed by sessionId, plus a fresh
job id counter. -/
structure QueueState where
  inflight : List (String × Nat)
  nextId : Nat
deriving DecidableEq

/-- Modelled from the spec: `JobQueue.enqueue(sessionId, recordingRef)`
checks the in-flight registry atomically; when a job for `sessionId` is
already pending or running it returns the existing handle as an idempotent
no-op, otherwise it admits a fresh job and records it. -/
def enqueue (st : QueueState) (sid : String) : JobHandle × QueueState :=
  match lookupKey sid st.inflight with
  | some jid => ({ jobId := jid, accepted := false }, st)
  | none =>
    ({ jobId := st.nextId, accepted := true },
     { inflight := (sid, st.nextId) :: st.inflight, nextId := st.nextId + 1 })

/-! ### Pipeline orchestrator
The Celery task `process_video` (backend
service/celery/video_processing_for_celery.py) is not part of this tree;
the stage fold is modelled from the specification (section 4.2) and from
docs/flow-frontend-nlp.md (sections 2 and 5). -/

/-- `StageResult<T> = Ok(T) | Skipped(reason) | Failed(error)` - the
in-memory union each stage produces. -/
inductive StageResult (T : Type) where
  | ok (value : T)
  | skipped (reason : String)
  | failed (error : String)
deriving DecidableEq

/-- Project the successful payload out of a stage result. -/
def StageResult.toOption {T : Type} : StageResult T → Option T
  | .ok value => some value
  | .skipped _ => none
  | .failed _ => none

/-- What one run persists: the two aggregate fields of `SessionAnalysis`,
the raw transcript, and the terminal status. -/
structure PipelineOutcome (V A T : Type) where
  status : String
  videoAnalysis : Option V
  audioAnalysis : Option A
  transcript : Option T
deriving DecidableEq

/-- Modelled from the spec: the orchestrator's stage fold (section 4.2).
MediaExtractor failure is fatal and yields `FAILED` with nothing
persisted; otherwise TranscriptionStage and VisualAssessmentStage run on
the artifacts, ContentVerificationStage runs only on an Ok transcript
(else `Skipped("no transcript")`), each non-Ok stage leaves its aggregate
field absent, and the terminal status is `COMPLETED` whenever the fatal
stage succeeded. -/
def runPipeline {Artifacts V A T : Type}
    (extraction : StageResult Artifacts)
    (transcribe : Artifacts → StageResult T)
    (visual : Artifacts → StageResult V)
    (verify : T → StageResult A) : PipelineOutcome V A T :=
  match extraction with
  | .ok artifacts =>
    let transcriptRes := transcribe artifacts
    let visualRes := visual artifacts
    let verificationRes :=
      match transcriptRes with
      | .ok transcript => verify transcript
      | _ => .skipped "no transcript"
    { status := "COMPLETED"
      videoAnalysis := visualRes.toOption
      audioAnalysis := verificationRes.toOption
      transcript := transcriptRes.toOption }
  | _ =>
    { status := "FAILED", videoAnalysis := none, audioAnalysis := none,
      transcript := none }

/-! ### Persistence ordering
Modelled from the spec (section 4.2, terminal states only after
ResultStore durably committed) and docs/flow-frontend-nlp.md (step 3 of
the Celery task: upsert transcript, upsert analysis, set status, send
email). -/

/-- One atomic write of the persistence phase. -/
inductive PersistEvent (T A : Type) where
  | upsertTranscriptEv (d : T)
  | upsertAnalysisEv (d : A)
  | setStatusEv (s : String)
  | notifyEv (s : String)
deriving DecidableEq

/-- The store as a poller sees it: the persisted aggregates and the status
field that polling reads. -/
structure StoreView (T A : Type) where
  transcript : Option T
  analysis : Option A
  status : String
deriving DecidableEq

/-- Effect of one persistence event on the store; notification does not
touch the store. -/
def applyEvent {T A : Type} (st : StoreView T A) :
    PersistEvent T A → StoreView T A
  | .upsertTranscriptEv d => { st with transcript := some d }
  | .upsertAnalysisEv d => { st with analysis := some d }
  | .setStatusEv s => { st with status := s }
  | .notifyEv _ => st

/-- Modelled from the spec: the persistence phase of one run, in program
order - upsert whatever partial transcript and analysis data exists, only
then set the terminal status, and notify last. -/
def persistSequence {T A : Type} (t : Option T) (a : Option A)
    (terminal : String) : List (PersistEvent T A) :=
  (match t with
   | some d => [PersistEvent.upsertTranscriptEv d]
   | none => []) ++
  (match a with
   | some d => [PersistEvent.upsertAnalysisEv d]
   | none => []) ++
  [PersistEvent.setStatusEv terminal, PersistEvent.notifyEv terminal]

/-- Every store state a poller can observe while a list of events runs:
the state before each event and the final state. -/
def statesFrom {T A : Type} (st : StoreView T A) :
    List (PersistEvent T A) → List (StoreView T A)
  | [] => [st]
  | e :: rest => st :: statesFrom (applyEvent st e) rest

/-! ### ResultStore upsert
`create_or_update_session_analysis` (backend session_analysis service) is
not part of this tree; modelled from the specification (section 4.3):
keyed by sessionId, a new write replaces the prior record entirely. -/

/-- Modelled from the spec: `upsertAnalysis(sessionId, data)` /
`create_or_update_session_analysis` - replace any record stored under
`sessionId` with the new data, never merging fields and never leaving a
second record. -/
def create_or_update_session_analysis {A : Type}
    (store : List (String × A)) (sid : String) (d : A) :
    List (String × A) :=
  (sid, d) :: removeKey sid store

/-! ### Concrete sample data used by witnesses -/

/-- A sample red flag object. -/
def demoFlag : RedFlagObj :=
  { type := some "pressure tactics", message := none, description := none,
    timestamp := none }

/-- A sample analysis response carrying a terminal status. -/
def completedPollResponse : SessionAnalysisResponse :=
  { status := some "COMPLETED", video_analysis_data := none,
    audio_analysis_data := none }

/-- A sample transcript payload. -/
def demoTranscript : TranscriptData :=
  { utterances := [{ speaker := 0, text := "hello", role := "counselor",
                     start_time := "00:00:00.00", end_time := "00:00:01.00" }] }

/-- A stored session whose analysis finished. -/
def demoStoreCompleted : StoredSession :=
  { status := "COMPLETED", raw_transcript := some demoTranscript }

/-- A stored session whose analysis is still pending. -/
def demoStorePending : StoredSession :=
  { status := "PENDING", raw_transcript := some demoTranscript }

/-! ### Helper lemmas -/

/-- A filter keeps an element exactly when some element satisfies the
predicate. -/
theorem filter_length_pos_iff_any {α : Type} (p : α → Bool) (l : List α) :
    (0 < (l.filter p).length) ↔ l.any p = true := by
  induction l with
  | nil => simp
  | cons x xs ih =>
    by_cases hx : p x = true
    · simp [hx]
    · simp [hx, ih]

/-- `clampScore` lands in the closed interval 0..100. -/
theorem clampScore_bounds (s : Int) : 0 ≤ clampScore s ∧ clampScore s ≤ 100 := by
  unfold clampScore
  exact ⟨le_max_left 0 _, max_le (by norm_num) (min_le_left _ _)⟩

/-- Rank of the severity label, characterized by the flag count. -/
theorem severityRank_gps (flags : List RedFlagObj) :
    severityRank (getPressureSeverity flags) =
      (if flags.length = 0 then 0 else if flags.length ≤ 2 then 1
       else if flags.length ≤ 4 then 2 else 3) := by
  show severityRank
      (if flags.length = 0 then "None" else if flags.length ≤ 2 then "Low"
       else if flags.length ≤ 4 then "Medium" else "High") = _
  split_ifs <;> rfl

/-- A key absent from the lookup has no entries. -/
theorem countFor_eq_zero_of_lookup_none {A : Type} (sid : String)
    (l : List (String × A)) (h : lookupKey sid l = none) :
    countFor sid l = 0 := by
  induction l with
  | nil => rfl
  | cons p rest ih =>
    obtain ⟨s, d⟩ := p
    by_cases hs : s = sid
    · simp [lookupKey, hs] at h
    · simp only [lookupKey, hs, if_false, ite_false] at h
      simp [countFor, hs, ih h]

/-- Removing a key twice is the same as removing it once. -/
theorem removeKey_idem {A : Type} (sid : String) (l : List (String × A)) :
    removeKey sid (removeKey sid l) = removeKey sid l := by
  induction l with
  | nil => rfl
  | cons p rest ih =>
    obtain ⟨s, d⟩ := p
    by_cases hs : s = sid
    · simp [removeKey, hs, ih]
    · simp [removeKey, hs, ih]

/-- After removal a key has no entries left. -/
theorem countFor_removeKey {A : Type} (sid : String) (l : List (String × A)) :
    countFor sid (removeKey sid l) = 0 := by
  induction l with
  | nil => rfl
  | cons p rest ih =>
    obtain ⟨s, d⟩ := p
    by_cases hs : s = sid
    · simp [removeKey, hs, ih]
    · simp [removeKey, countFor, hs, ih]

/-! ### Claim theorems -/

/-- Claim C9: `getPressureSeverity` returns "None" exactly on the empty
flag list, "Low" exactly for 1 or 2 flags, "Medium" exactly for 3 or 4,
"High" exactly for 5 or more, and its severity rank is monotone
non-decreasing in the number of flags. -/
theorem claim_C9_pressure_severity :
    ∀ flags : List RedFlagObj,
      ((getPressureSeverity flags = "None") ↔ flags = []) ∧
      ((getPressureSeverity flags = "Low") ↔
        (flags.length = 1 ∨ flags.length = 2)) ∧
      ((getPressureSeverity flags = "Medium") ↔
        (flags.length = 3 ∨ flags.length = 4)) ∧
      ((getPressureSeverity flags = "High") ↔ 5 ≤ flags.length) ∧
      (∀ more : List RedFlagObj, flags.length ≤ more.length →
        severityRank (getPressureSeverity flags) ≤
          severityRank (getPressureSeverity more)) := by
  intro flags
  have hchar : getPressureSeverity flags =
      (if flags.length = 0 then "None" else if flags.length ≤ 2 then "Low"
       else if flags.length ≤ 4 then "Medium" else "High") := rfl
  refine ⟨?_, ?_, ?_, ?_, ?_⟩
  · rw [hchar]; split_ifs with h1 h2 h3
    · exact iff_of_true rfl (List.length_eq_zero.mp h1)
    · exact iff_of_false (by decide) (fun h => h1 (by simp [h]))
    · exact iff_of_false (by decide) (fun h => h1 (by simp [h]))
    · exact iff_of_false (by decide) (fun h => h1 (by simp [h]))
  · rw [hchar]; split_ifs with h1 h2 h3
    · exact iff_of_false (by decide) (by omega)
    · exact iff_of_true rfl (by omega)
    · exact iff_of_false (by decide) (by omega)
    · exact iff_of_false (by decide) (by omega)
  · rw [hchar]; split_ifs with h1 h2 h3
    · exact iff_of_false (by decide) (by omega)
    · exact iff_of_false (by decide) (by omega)
    · exact iff_of_true rfl (by omega)
    · exact iff_of_false (by decide) (by omega)
  · rw [hchar]; split_ifs with h1 h2 h3
    · exact iff_of_false (by decide) (by omega)
    · exact iff_of_false (by decide) (by omega)
    · exact iff_of_false (by decide) (by omega)
    · exact iff_of_true rfl (by omega)
  · intro more hle
    rw [severityRank_gps, severityRank_gps]
    split_ifs <;> omega

/-- Witness for claim C9 at concrete inputs. -/
theorem claim_C9_pressure_severity_witness :
    getPressureSeverity ([] : List RedFlagObj) = "None" ∧
    severityRank (getPressureSeverity ([] : List RedFlagObj)) ≤
      severityRank (getPressureSeverity [demoFlag]) :=
  ⟨(claim_C9_pressure_severity []).1.mpr rfl,
   (claim_C9_pressure_severity []).2.2.2.2 [demoFlag] (by decide)⟩

/-- Claim C10: `getSessionAnalysisBySession` never propagates a request
failure - it returns the parsed body on success and `null` (here `none`)
on any failure; being a total Lean function it throws nothing. -/
theorem claim_C10_analysis_fetch_total :
    ∀ outcome : Except String SessionAnalysisResponse,
      (∀ body, outcome = Except.ok body →
        getSessionAnalysisBySession outcome = some body) ∧
      (∀ e, outcome = Except.error e →
        getSessionAnalysisBySession outcome = none) := by
  intro outcome
  constructor
  · intro body h; subst h; rfl
  · intro e h; subst h; rfl

/-- Witness for claim C10 at concrete outcomes. -/
theorem claim_C10_analysis_fetch_total_witness :
    getSessionAnalysisBySession (Except.ok completedPollResponse) =
      some completedPollResponse ∧
    getSessionAnalysisBySession
      (Except.error "network" : Except String SessionAnalysisResponse) = none :=
  ⟨(claim_C10_analysis_fetch_total (Except.ok completedPollResponse)).1
      completedPollResponse rfl,
   (claim_C10_analysis_fetch_total (Except.error "network")).2 "network" rfl⟩

/-- Claim C7 counterexample: with a fetched response whose status is the
terminal value COMPLETED, `useSessionAnalysisWithPolling` still passes the
polling interval as `refetchInterval` (the default 5000 ms), so a further
refetch is scheduled after a terminal status was observed. -/
theorem claim_C7_counterexample :
    shouldPollOf (some completedPollResponse) = some "COMPLETED" ∧
    refetchIntervalOf 5000 (some completedPollResponse) = some 5000 := by
  constructor
  · rfl
  · rfl

/-- Claim C7 amended: the polling helper schedules a refetch at the fixed
interval exactly when the last observed response carries a non-empty
status value - terminal or not - and stops only when no status is
available (no data yet, a failed fetch, or an absent status field). -/
theorem claim_C7_polling_amended :
    ∀ (pollingInterval : Nat) (data : Option SessionAnalysisResponse),
      (refetchIntervalOf pollingInterval data = some pollingInterval ↔
        (∃ s, shouldPollOf data = some s ∧ s ≠ "")) ∧
      (refetchIntervalOf pollingInterval data = none ↔
        (shouldPollOf data = none ∨ shouldPollOf data = some "")) := by
  intro pollingInterval data
  cases hs : shouldPollOf data with
  | none => simp [refetchIntervalOf, jsTruthyStr, hs]
  | some s =>
    by_cases he : s = ""
    · subst he; simp [refetchIntervalOf, jsTruthyStr, hs]
    · simp [refetchIntervalOf, jsTruthyStr, hs, he]

/-- Claim C2 counterexample: the status value STARTED is a member of the
status union the code produces and observes, but it is not one of the
four values PENDING, RUNNING, COMPLETED, FAILED named by the claim. -/
theorem claim_C2_counterexample :
    "STARTED" ∈ analysisStatusValues ∧ "STARTED" ∉ specStatusValues := by
  decide

/-- Claim C2 amended: every observable status value is one of PENDING,
STARTED, COMPLETED, FAILED, and every lifecycle transition follows the
chain PENDING to STARTED to one of COMPLETED or FAILED. -/
theorem claim_C2_status_amended :
    (∀ s ∈ analysisStatusValues,
      s ∈ ["PENDING", "STARTED", "COMPLETED", "FAILED"]) ∧
    (∀ a b, statusStep a b = true →
      (a = "PENDING" ∧ b = "STARTED") ∨
      (a = "STARTED" ∧ (b = "COMPLETED" ∨ b = "FAILED"))) := by
  constructor
  · decide
  · intro a b h
    simp only [statusStep, Bool.or_eq_true, Bool.and_eq_true,
      decide_eq_true_eq] at h
    exact h

/-- Witness for claim C2 at concrete statuses. -/
theorem claim_C2_status_amended_witness :
    "STARTED" ∈ ["PENDING", "STARTED", "COMPLETED", "FAILED"] ∧
    (("PENDING" = "PENDING" ∧ "STARTED" = "STARTED") ∨
     ("PENDING" = "STARTED" ∧
       ("STARTED" = "COMPLETED" ∨ "STARTED" = "FAILED"))) :=
  ⟨claim_C2_status_amended.1 "STARTED" (by decide),
   claim_C2_status_amended.2 "PENDING" "STARTED" (by decide)⟩

/-- Claim C1: the transcript read serves transcript data exactly when the
stored analysis status is COMPLETED; for any other status the endpoint
response is status-only and the viewer, fed through `getRawTranscript`,
renders no utterances. -/
theorem claim_C1_transcript_gating :
    ∀ st : StoredSession, st.raw_transcript.isSome →
      ((transcriptEndpoint st).raw_transcript.isSome ↔
        st.status = "COMPLETED") ∧
      (st.status = "COMPLETED" →
        (transcriptEndpoint st).raw_transcript = st.raw_transcript ∧
        (transcriptEndpoint st).status = st.status) ∧
      (st.status ≠ "COMPLETED" →
        (transcriptEndpoint st).raw_transcript = none ∧
        (transcriptEndpoint st).status = st.status ∧
        viewerUtterances
          (getRawTranscript (Except.ok (transcriptEndpoint st))) none = []) := by
  intro st h
  by_cases hc : st.status = "COMPLETED"
  · refine ⟨?_, fun _ => ⟨?_, ?_⟩, fun hn => absurd hc hn⟩
    · simp [transcriptEndpoint, hc, h]
    · simp [transcriptEndpoint, hc]
    · simp [transcriptEndpoint, hc]
  · refine ⟨?_, fun hcc => absurd hcc hc, fun _ => ⟨?_, ?_, ?_⟩⟩
    · simp [transcriptEndpoint, hc]
    · simp [transcriptEndpoint, hc]
    · simp [transcriptEndpoint, hc]
    · simp [viewerUtterances, viewerCurrentData, getRawTranscript,
        transcriptEndpoint, hc]

/-- Witness for claim C1 at a completed and a pending stored session. -/
theorem claim_C1_transcript_gating_witness :
    ((transcriptEndpoint demoStoreCompleted).raw_transcript.isSome ↔
      demoStoreCompleted.status = "COMPLETED") ∧
    ((transcriptEndpoint demoStorePending).raw_transcript = none ∧
      (transcriptEndpoint demoStorePending).status = demoStorePending.status ∧
      viewerUtterances
        (getRawTranscript (Except.ok (transcriptEndpoint demoStorePending)))
        none = []) :=
  ⟨(claim_C1_transcript_gating demoStoreCompleted rfl).1,
   (claim_C1_transcript_gating demoStorePending rfl).2.2 (by decide)⟩

/-- Claim C3: when extraction succeeded, the transcription stage failed
and the visual assessment stage succeeded, the final aggregate carries the
video analysis, no audio analysis, and terminal status COMPLETED - a
non-fatal stage failure never marks the job FAILED. -/
theorem claim_C3_partial_completion :
    ∀ (Artifacts V A T : Type) (artifacts : Artifacts)
      (transcribe : Artifacts → StageResult T)
      (visual : Artifacts → StageResult V)
      (verify : T → StageResult A) (err : String) (vd : V),
      transcribe artifacts = StageResult.failed err →
      visual artifacts = StageResult.ok vd →
      (runPipeline (StageResult.ok artifacts) transcribe visual
          verify).videoAnalysis = some vd ∧
      (runPipeline (StageResult.ok artifacts) transcribe visual
          verify).audioAnalysis = none ∧
      (runPipeline (StageResult.ok artifacts) transcribe visual
          verify).status = "COMPLETED" := by
  intro Artifacts V A T artifacts transcribe visual verify err vd ht hv
  refine ⟨?_, ?_, ?_⟩ <;> simp [runPipeline, ht, hv, StageResult.toOption]

/-- Witness for claim C3 with concrete stage outcomes. -/
theorem claim_C3_partial_completion_witness :
    (runPipeline (StageResult.ok (0 : Nat))
        (fun _ => (StageResult.failed "unsupported audio codec" :
          StageResult Nat))
        (fun _ => StageResult.ok (7 : Nat))
        (fun _ => StageResult.ok (1 : Nat))).videoAnalysis = some 7 ∧
    (runPipeline (StageResult.ok (0 : Nat))
        (fun _ => (StageResult.failed "unsupported audio codec" :
          StageResult Nat))
        (fun _ => StageResult.ok (7 : Nat))
        (fun _ => StageResult.ok (1 : Nat))).audioAnalysis = none ∧
    (runPipeline (StageResult.ok (0 : Nat))
        (fun _ => (StageResult.failed "unsupported audio codec" :
          StageResult Nat))
        (fun _ => StageResult.ok (7 : Nat))
        (fun _ => StageResult.ok (1 : Nat))).status = "COMPLETED" :=
  claim_C3_partial_completion Nat Nat Nat Nat 0
    (fun _ => StageResult.failed "unsupported audio codec")
    (fun _ => StageResult.ok 7) (fun _ => StageResult.ok 1)
    "unsupported audio codec" 7 rfl rfl

/-- Claim C4: triggering analysis twice before the first run completes
admits exactly one job; the second call is a non-error no-op whose handle
references the job the first call admitted. -/
theorem claim_C4_dedup :
    ∀ (st : QueueState) (sid : String),
      lookupKey sid st.inflight = none →
      (enqueue (enqueue st sid).2 sid).1.jobId = (enqueue st sid).1.jobId ∧
      countFor sid (enqueue (enqueue st sid).2 sid).2.inflight = 1 ∧
      (enqueue st sid).1.accepted = true ∧
      (enqueue (enqueue st sid).2 sid).1.accepted = false := by
  intro st sid h
  have hc : countFor sid st.inflight = 0 :=
    countFor_eq_zero_of_lookup_none sid st.inflight h
  simp [enqueue, h, lookupKey, countFor, hc]

/-- Witness for claim C4 starting from the empty registry. -/
theorem claim_C4_dedup_witness :
    (enqueue (enqueue ⟨[], 0⟩ "S1").2 "S1").1.jobId =
      (enqueue ⟨[], 0⟩ "S1").1.jobId ∧
    countFor "S1" (enqueue (enqueue ⟨[], 0⟩ "S1").2 "S1").2.inflight = 1 ∧
    (enqueue ⟨[], 0⟩ "S1").1.accepted = true ∧
    (enqueue (enqueue ⟨[], 0⟩ "S1").2 "S1").1.accepted = false :=
  claim_C4_dedup ⟨[], 0⟩ "S1" rfl

/-- Claim C5: along the run's persistence phase, any observable store
state whose status reads COMPLETED already has every upsert of the run's
partial data applied - a poller can never read COMPLETED before the
corresponding writes are visible. -/
theorem claim_C5_status_visibility :
    ∀ (T A : Type) (t : Option T) (a : Option A) (init : StoreView T A),
      init.status ≠ "COMPLETED" →
      ∀ view ∈ statesFrom init (persistSequence t a "COMPLETED"),
        view.status = "COMPLETED" →
          (∀ d, t = some d → view.transcript = some d) ∧
          (∀ d, a = some d → view.analysis = some d) := by
  intro T A t a init hinit view hmem hstatus
  cases t with
  | none =>
    cases a with
    | none =>
      exact ⟨fun d hd => Option.noConfusion hd,
             fun d hd => Option.noConfusion hd⟩
    | some ad =>
      simp [persistSequence, statesFrom, applyEvent] at hmem
      rcases hmem with rfl | rfl | rfl
      · exact absurd hstatus hinit
      · exact absurd hstatus hinit
      · exact ⟨fun d hd => Option.noConfusion hd,
               fun d hd => by cases hd; rfl⟩
  | some td =>
    cases a with
    | none =>
      simp [persistSequence, statesFrom, applyEvent] at hmem
      rcases hmem with rfl | rfl | rfl
      · exact absurd hstatus hinit
      · exact absurd hstatus hinit
      · exact ⟨fun d hd => by cases hd; rfl,
               fun d hd => Option.noConfusion hd⟩
    | some ad =>
      simp [persistSequence, statesFrom, applyEvent] at hmem
      rcases hmem with rfl | rfl | rfl | rfl
      · exact absurd hstatus hinit
      · exact absurd hstatus hinit
      · exact absurd hstatus hinit
      · exact ⟨fun d hd => by cases hd; rfl,
               fun d hd => by cases hd; rfl⟩

/-- Witness for claim C5: the terminal state of a run that persisted both
aggregates carries both writes. -/
theorem claim_C5_status_visibility_witness :
    (⟨some 1, some 2, "COMPLETED"⟩ : StoreView Nat Nat).transcript = some 1 ∧
    (⟨some 1, some 2, "COMPLETED"⟩ : StoreView Nat Nat).analysis = some 2 :=
  have h := claim_C5_status_visibility Nat Nat (some 1) (some 2)
    ⟨none, none, "STARTED"⟩ (by decide) ⟨some 1, some 2, "COMPLETED"⟩
    (by decide) rfl
  ⟨h.1 1 rfl, h.2 2 rfl⟩

/-- Claim C6: the analysis upsert is idempotent and wholly replacing:
writing X twice equals writing it once and leaves a single record; a later
write of Y leaves a single record equal to Y, with no remnant of X - the
store then equals the store produced by writing Y alone. -/
theorem claim_C6_upsert_idempotent_replacing :
    ∀ (A : Type) (store : List (String × A)) (sid : String) (X Y : A),
      create_or_update_session_analysis
          (create_or_update_session_analysis store sid X) sid X =
        create_or_update_session_analysis store sid X ∧
      countFor sid (create_or_update_session_analysis store sid X) = 1 ∧
      lookupKey sid
          (create_or_update_session_analysis
            (create_or_update_session_analysis store sid X) sid Y) = some Y ∧
      countFor sid
          (create_or_update_session_analysis
            (create_or_update_session_analysis store sid X) sid Y) = 1 ∧
      create_or_update_session_analysis
          (create_or_update_session_analysis store sid X) sid Y =
        create_or_update_session_analysis store sid Y := by
  intro A store sid X Y
  have hrm : removeKey sid ((sid, X) :: removeKey sid store) =
      removeKey sid store := by
    simp [removeKey, removeKey_idem]
  refine ⟨?_, ?_, ?_, ?_, ?_⟩
  · simp [create_or_update_session_analysis, hrm]
  · simp [create_or_update_session_analysis, countFor, countFor_removeKey]
  · simp [create_or_update_session_analysis, lookupKey]
  · simp [create_or_update_session_analysis, hrm, countFor, countFor_removeKey]
  · simp [create_or_update_session_analysis, hrm]

/-- Claim C8: `calcCompliance` always lands in 0..100 and equals the
clamp of 50 for a strict-true attire flag, plus 50 for a strict-true
background flag, minus 25 when some red flag matches a payment keyword,
minus 25 when some red flag matches a pressure keyword - uniformly over
the full and bulk input shapes. -/
theorem claim_C8_calc_compliance :
    ∀ input : AnalysisInput,
      0 ≤ calcCompliance input ∧ calcCompliance input ≤ 100 ∧
      calcCompliance input = clampScore
        ((if attireMeetsOf input = some true then 50 else 0) +
         (if backgroundMeetsOf input = some true then 50 else 0) -
         (if (redFlagsOf input).any (matchesKeywords paymentKeywords)
            then 25 else 0) -
         (if (redFlagsOf input).any (matchesKeywords pressureKeywords)
            then 25 else 0)) := by
  intro input
  have heq : calcCompliance input = clampScore
      ((if attireMeetsOf input = some true then 50 else 0) +
       (if backgroundMeetsOf input = some true then 50 else 0) -
       (if (redFlagsOf input).any (matchesKeywords paymentKeywords)
          then 25 else 0) -
       (if (redFlagsOf input).any (matchesKeywords pressureKeywords)
          then 25 else 0)) := by
    cases input with
    | bulk b =>
      by_cases ha : b.video_analysis_summary.environment_analysis.attire_assessment.meets_professional_standards = true <;>
      by_cases hb : b.video_analysis_summary.environment_analysis.background_assessment.meets_professional_standards = true <;>
      by_cases hp : b.audio_analysis_summary.red_flags.any
          (matchesKeywords paymentKeywords) = true <;>
      by_cases hq : b.audio_analysis_summary.red_flags.any
          (matchesKeywords pressureKeywords) = true <;>
      simp [calcCompliance, attireMeetsOf, backgroundMeetsOf, redFlagsOf,
        clampScore, filterPaymentFlags, filterPressureFlags,
        filter_length_pos_iff_any, gt_iff_lt, ha, hb, hp, hq]
    | full a =>
      by_cases ha : ((a.video_analysis_data.bind
          VideoAnalysisData.environment_analysis).bind
          EnvironmentAnalysis.attire_assessment).bind
          Assessment.meets_professional_standards = some true <;>
      by_cases hb : ((a.video_analysis_data.bind
          VideoAnalysisData.environment_analysis).bind
          EnvironmentAnalysis.background_assessment).bind
          Assessment.meets_professional_standards = some true <;>
      by_cases hp : ((a.audio_analysis_data.bind
          AudioAnalysisData.red_flags).getD []).any
          (matchesKeywords paymentKeywords) = true <;>
      by_cases hq : ((a.audio_analysis_data.bind
          AudioAnalysisData.red_flags).getD []).any
          (matchesKeywords pressureKeywords) = true <;>
      simp [calcCompliance, attireMeetsOf, backgroundMeetsOf, redFlagsOf,
        clampScore, filterPaymentFlags, filterPressureFlags,
        filter_length_pos_iff_any, gt_iff_lt, ha, hb, hp, hq]
  refine ⟨?_, ?_, heq⟩
  · rw [heq]; exact (clampScore_bounds _).1
  · rw [heq]; exact (clampScore_bounds _).2

end CounselPro
